import Mathlib

/-!
Verification of the workshop-matrix display core: a shallow embedding of the
time-scaling clock (`time_keeper`), the program registry/executor
(`program_manager`), the switching policy (`program_scheduler`) and the
list renderer's scroll state machine (`MenuRenderer`), translated from
`src/ws_display/`.  Python floats are modelled as rationals; wall-clock
reads (`time.time()` / `datetime.now()`) are passed in explicitly as the
real instants observed by each call.  Frame canvases carry no information
relevant to the verified properties and are omitted from the embedded
result records.
-/

namespace WsDisplay

/-- State of `time_keeper` (src/ws_display/time_keeper.py): a scale factor
plus anchors for the scaled `time()` float and the scaled `now()` datetime
(the datetime is modelled as a rational number of seconds). -/
structure time_keeper where
  timescale : ℚ
  last_real_time : ℚ
  last_returned_time : ℚ
  last_real_datetime : ℚ
  last_returned_datetime : ℚ
deriving DecidableEq, Repr

namespace time_keeper

/-- `time_keeper.__init__`: anchors both clocks at the current real
readings; the initial timescale is stored without any validation. -/
def init (initial_timescale : ℚ) (real_now : ℚ) (real_dt_now : ℚ) : time_keeper :=
  { timescale := initial_timescale
    last_real_time := real_now
    last_returned_time := real_now
    last_real_datetime := real_dt_now
    last_returned_datetime := real_dt_now }

/-- `time_keeper.time()`: advances the scaled clock by the real delta since
the last read multiplied by the timescale, re-anchors, and returns the new
scaled value.  `current_real` is the `time.time()` reading this call
observes. -/
def time (tk : time_keeper) (current_real : ℚ) : ℚ × time_keeper :=
  let real_time_diff := current_real - tk.last_real_time
  let scaled_time_diff := real_time_diff * tk.timescale
  let returned := tk.last_returned_time + scaled_time_diff
  (returned, { tk with last_real_time := current_real, last_returned_time := returned })

/-- `time_keeper.now()`: same advance-and-re-anchor scheme for the scaled
datetime.  `current_real_dt` is the `datetime.now()` reading this call
observes, in seconds. -/
def now (tk : time_keeper) (current_real_dt : ℚ) : ℚ × time_keeper :=
  let real_dt_diff := current_real_dt - tk.last_real_datetime
  let scaled_dt_diff := real_dt_diff * tk.timescale
  let returned := tk.last_returned_datetime + scaled_dt_diff
  (returned, { tk with last_real_datetime := current_real_dt, last_returned_datetime := returned })

/-- `time_keeper.set_timescale(timescale)`: rejects a non-positive factor
before touching any state (the `raise` precedes all mutation, so the error
case returns the receiver unchanged); otherwise flushes both clocks via
`time()` and `now()` at the old scale and only then installs the new
factor.  `r` and `d` are the real readings the flushing calls observe. -/
def set_timescale (tk : time_keeper) (timescale : ℚ) (r : ℚ) (d : ℚ) :
    Except String Unit × time_keeper :=
  if timescale ≤ 0 then
    (Except.error "Timescale must be positive", tk)
  else
    let tk1 := (tk.time r).2
    let tk2 := (tk1.now d).2
    (Except.ok (), { tk2 with timescale := timescale })

end time_keeper

/-- The program runner classes registered with the manager
(src/ws_display/program_manager.py, `initialize_programs`).  `saver n`
stands for an additional screensaver-flagged runner subclass used when a
scenario registers several screensavers; none of these classes subclass
one another, so `isinstance`/`issubclass` tests against
`workshop_runner` or `burn_program_runner` are equality tests on this
tag. -/
inductive PType where
  | eye
  | workshop
  | gnome
  | teeth
  | careBear
  | burn
  | saver (n : ℕ)
deriving DecidableEq, Repr

/-- The behaviour of one `program_runner` instance as the manager and
scheduler observe it: its runtime type, its `is_screen_saver()` flag and
its `get_play_duration_seconds()` value (`none` = run indefinitely). -/
structure ProgramSpec where
  tag : PType
  is_screen_saver : Bool
  play_duration : Option ℚ
deriving DecidableEq, Repr

/-- `ProgramFinishReason` (src/ws_display/program_runner_result.py). -/
inductive ProgramFinishReason where
  | SELF_TERMINATED
  | DURATION_EXPIRED
  | FORCED_TERMINATION
deriving DecidableEq, Repr

/-- `render_result` (src/ws_display/render_result.py), minus the canvas. -/
structure render_result where
  finished : Bool
deriving DecidableEq, Repr

/-- `program_runner_result` (src/ws_display/program_runner_result.py),
minus the canvas. -/
structure program_runner_result where
  finished_program_type : Option PType := none
  finish_reason : Option ProgramFinishReason := none
deriving DecidableEq, Repr

/-- State of `program_manager` (src/ws_display/program_manager.py).
`programs` is the registration-ordered list; the `program_types` dict has
the same insertion order and maps each runtime type to its single
instance, so both are represented by the one list.  `canvas_present`
models whether `self.canvas` is set. -/
structure program_manager where
  programs : List ProgramSpec
  active_program : Option ProgramSpec
  program_start_time : ℚ
  canvas_present : Bool
deriving DecidableEq, Repr

namespace program_manager

/-- `program_manager.get_program_by_type`: dictionary lookup by runtime
type, here a search of the registration-ordered list. -/
def get_program_by_type (pm : program_manager) (t : PType) : Option ProgramSpec :=
  pm.programs.find? (fun p => p.tag = t)

/-- `program_manager.set_active_program`: activates the program of the
given type if registered, recording `program_start_time` from a
`time_keeper.time()` read (at real instant `r`); unknown type leaves all
state unchanged and returns false. -/
def set_active_program (pm : program_manager) (tk : time_keeper) (t : PType) (r : ℚ) :
    Bool × program_manager × time_keeper :=
  match pm.get_program_by_type t with
  | some p =>
      (true,
       { pm with active_program := some p, program_start_time := (tk.time r).1 },
       (tk.time r).2)
  | none => (false, pm, tk)

/-- `program_manager.get_screensaver_programs`: registration-ordered
filter on the `is_screen_saver()` flag. -/
def get_screensaver_programs (pm : program_manager) : List ProgramSpec :=
  pm.programs.filter (fun p => p.is_screen_saver)

/-- `program_manager.run_program`, one frame.  The active program's
`render` outcome for this frame is the dynamic input `rr`; `r` is the real
instant the `time_keeper.time()` call inside the method observes.  Mirrors
the source order: the `finished` check precedes (and skips) the clock
read and the duration check. -/
def run_program (pm : program_manager) (tk : time_keeper) (rr : render_result) (r : ℚ) :
    program_runner_result × time_keeper :=
  match pm.active_program with
  | none => ({ }, tk)
  | some active =>
      if ¬ pm.canvas_present then ({ }, tk)
      else if rr.finished then
        ({ finished_program_type := some active.tag
           finish_reason := some ProgramFinishReason.SELF_TERMINATED }, tk)
      else
        let (current_time, tk') := tk.time r
        match active.play_duration with
        | some play_duration =>
            if current_time - pm.program_start_time ≥ play_duration then
              ({ finished_program_type := some active.tag
                 finish_reason := some ProgramFinishReason.DURATION_EXPIRED }, tk')
            else ({ }, tk')
        | none => ({ }, tk')

end program_manager

/-- State of `program_scheduler` (src/ws_display/program_scheduler.py).
The burn (override) window bounds are in the scaled-datetime timeline read
by `time_keeper.now()`. -/
structure program_scheduler where
  last_program_switch_time : ℚ
  last_screen_saver_index : ℕ
  burn_start_time : ℚ
  burn_end_time : ℚ
deriving DecidableEq, Repr

namespace program_scheduler

/-- `program_scheduler.DISPLAY_SCREENSAVER_AFTER_SECONDS`. -/
def DISPLAY_SCREENSAVER_AFTER_SECONDS : ℚ := 30

/-- `program_scheduler._set_initial_program`: activates the first
registered program whose type is (a subclass of) `workshop_runner`; does
nothing when none is registered.  Touches only the manager and the clock,
never the scheduler's own fields. -/
def set_initial_program (pm : program_manager) (tk : time_keeper) (r : ℚ) :
    program_manager × time_keeper :=
  match pm.programs.find? (fun p => p.tag = PType.workshop) with
  | some p => (pm.set_active_program tk p.tag r).2
  | none => (pm, tk)

/-- `program_scheduler._should_run_burn_program`: reads the scaled
datetime (at real reading `d`) and tests membership in
`[burn_start_time, burn_end_time)`. -/
def should_run_burn_program (s : program_scheduler) (tk : time_keeper) (d : ℚ) :
    Bool × time_keeper :=
  (decide (s.burn_start_time ≤ (tk.now d).1 ∧ (tk.now d).1 < s.burn_end_time),
   (tk.now d).2)

/-- `program_scheduler._get_next_screensaver`: with a non-empty
screensaver list, subscripting `screensavers[self.last_screen_saver_index]`
with an out-of-range index raises `IndexError` before any mutation — the
index does *not* advance and the exception propagates to the caller
(`Except.error`).  In range, the slot is read and the index advances
modulo the list length whether or not the slot holds a program (`none`
models a falsy slot, for which the source returns no program after
skipping the index forward). -/
def get_next_screensaver (s : program_scheduler)
    (screensavers : List (Option ProgramSpec)) :
    Except String (Option PType × program_scheduler) :=
  if screensavers.isEmpty then Except.ok (none, s)
  else
    match screensavers.get? s.last_screen_saver_index with
    | none => Except.error "list index out of range"
    | some none =>
        Except.ok (none, { s with
          last_screen_saver_index := (s.last_screen_saver_index + 1) % screensavers.length })
    | some (some screensaver) =>
        Except.ok (some screensaver.tag, { s with
          last_screen_saver_index := (s.last_screen_saver_index + 1) % screensavers.length })

/-- The idle-timeout tail of `program_scheduler.may_update_program`
(lines 118-125): when the active program is not a screensaver and the
threshold since the last switch has passed, ask the round-robin for the
next screensaver and switch to it (recording the switch time) if one was
returned.  `active_program` is the local variable captured at the top of
`may_update_program`.  An `IndexError` from the round-robin propagates
out of `may_update_program`, whose final statement this check is: every
piece of the embedded state is then left exactly as it was, which is the
triple returned here; the in-flight exception itself lands in the frame
loop, outside the modelled subsystem, and no theorem below relies on
this arm. -/
def screensaver_check (s : program_scheduler) (pm : program_manager) (tk : time_keeper)
    (active_program : ProgramSpec) (current_time : ℚ) (r : ℚ) :
    program_scheduler × program_manager × time_keeper :=
  if active_program.is_screen_saver = false ∧
      current_time - s.last_program_switch_time ≥ DISPLAY_SCREENSAVER_AFTER_SECONDS then
    match s.get_next_screensaver (pm.get_screensaver_programs.map some) with
    | Except.error _ => (s, pm, tk)
    | Except.ok (some t, s') =>
        ({ s' with last_program_switch_time := current_time },
         (pm.set_active_program tk t r).2.1,
         (pm.set_active_program tk t r).2.2)
    | Except.ok (none, s') => (s', pm, tk)
  else (s, pm, tk)

/-- `program_scheduler.may_update_program`, translated clause for clause:
read the scaled clock; with no active program, set the initial one; on a
finished classification, set the initial (workshop) program and return;
otherwise the burn-window check runs before the idle-timeout screensaver
check, and leaving the burn program with no workshop registered falls
through to the screensaver check (as the source's unguarded `elif` loop
does). -/
def may_update_program (s : program_scheduler) (pm : program_manager) (tk : time_keeper)
    (result : program_runner_result) (r : ℚ) (d : ℚ) :
    program_scheduler × program_manager × time_keeper :=
  let current_time := (tk.time r).1
  let tk1 := (tk.time r).2
  match pm.active_program with
  | none =>
      (s, set_initial_program pm tk1 r)
  | some active_program =>
      if result.finished_program_type.isSome then
        (s, set_initial_program pm tk1 r)
      else
        let tk2 := (s.should_run_burn_program tk1 d).2
        if (s.should_run_burn_program tk1 d).1 then
          if active_program.tag ≠ PType.burn then
            match pm.programs.find? (fun p => p.tag = PType.burn) with
            | some p =>
                ({ s with last_program_switch_time := current_time },
                 (pm.set_active_program tk2 p.tag r).2)
            | none => (s, pm, tk2)
          else (s, pm, tk2)
        else
          if active_program.tag = PType.burn then
            match pm.programs.find? (fun p => p.tag = PType.workshop) with
            | some p =>
                ({ s with last_program_switch_time := current_time },
                 (pm.set_active_program tk2 p.tag r).2)
            | none => screensaver_check s pm tk2 active_program current_time r
          else screensaver_check s pm tk2 active_program current_time r

end program_scheduler

/-- `MenuItem` (src/ws_display/menu_renderer.py). -/
structure MenuItem where
  value_text : String
  name_text : String
  description_text : String
deriving DecidableEq, Repr

/-- The timing/speed options of `MenuRendererConfig`
(src/ws_display/menu_renderer.py); the pixel-geometry options feed only
the drawing code and are not modelled. -/
structure MenuRendererConfig where
  scroll_speed : ℚ
  min_current_time : ℚ
  max_current_time : ℚ
deriving DecidableEq, Repr

/-- Mutable state of `MenuRenderer` (src/ws_display/menu_renderer.py).
The two `Dict[int, ...]` scroll dictionaries are association lists keyed
by item index (`insert` below overwrites like a dict assignment). -/
structure MenuRenderer where
  config : MenuRendererConfig
  menu_items : List MenuItem
  active_item_index : ℕ
  last_active_change_time : ℚ
  scroll_start_times : List (ℕ × ℚ)
  scroll_directions : List (ℕ × ℤ)
deriving DecidableEq, Repr

/-- Dictionary assignment `m[k] = v` on an association list. -/
def dictInsert {α : Type} (m : List (ℕ × α)) (k : ℕ) (v : α) : List (ℕ × α) :=
  (k, v) :: m.filter (fun kv => kv.1 ≠ k)

namespace MenuRenderer

/-- `MenuRenderer.set_menu_items`: replaces the row set; the active index
and its dwell timer are reset only when the old index is out of range of
the new list *and* the new list is non-empty (the source condition is
`self.active_item_index >= len(items) and items`).  `current_time` is the
`get_current_time()` reading the reset branch observes. -/
def set_menu_items (m : MenuRenderer) (items : List MenuItem) (current_time : ℚ) :
    MenuRenderer :=
  let m := { m with menu_items := items }
  if m.active_item_index ≥ items.length ∧ items ≠ [] then
    { m with active_item_index := 0, last_active_change_time := current_time }
  else m

/-- `MenuRenderer.set_active_item`: bounds-checked; updates the active
index, resets the dwell timer and seeds this row's scroll state with
forward direction.  (Python's lower bound check `0 <= index` is implicit
in the `ℕ` index.) -/
def set_active_item (m : MenuRenderer) (index : ℕ) (current_time : ℚ) : MenuRenderer :=
  if index < m.menu_items.length then
    { m with
      active_item_index := index
      last_active_change_time := current_time
      scroll_start_times := dictInsert m.scroll_start_times index current_time
      scroll_directions := dictInsert m.scroll_directions index 1 }
  else m

/-- The final clamp of `MenuRenderer.render_name` (lines 342-347): going
forward the position is clamped into `[0, max_scroll]`; going backward
the rendered position is `max_scroll - scroll_position`, clamped the same
way.  `direction` is the local variable read before any reversal this
frame. -/
def render_name_clamp (direction : ℤ) (scroll_position max_scroll : ℚ) : ℚ :=
  if direction = 1 then max 0 (min scroll_position max_scroll)
  else max 0 (min (max_scroll - scroll_position) max_scroll)

/-- The scroll computation of `MenuRenderer.render_name` (lines 237-363),
returning the `scroll_position` subtracted from the text's x coordinate
(the rendered offset) together with the updated renderer state.
`name_width` is `calculate_text_width(name_font, name_text)` and
`max_width` the `max_width` argument; `current_time` is this frame's
`get_current_time()` reading.  `workshop_runner.render_workshop_name`
(src/ws_display/workshop_runner.py lines 324-450) contains the identical
computation with `last_location_change_time` in place of
`last_active_change_time`, so this definition embeds both. -/
def render_name (m : MenuRenderer) (name_width max_width : ℚ) (is_active : Bool)
    (item_index : ℕ) (current_time : ℚ) : ℚ × MenuRenderer :=
  let available_width := max_width
  let needs_scrolling := name_width > available_width
  if is_active ∧ needs_scrolling then
    let m :=
      if (m.scroll_start_times.lookup item_index).isNone then
        { m with
          scroll_start_times := dictInsert m.scroll_start_times item_index current_time
          scroll_directions := dictInsert m.scroll_directions item_index 1 }
      else m
    let start_time := (m.scroll_start_times.lookup item_index).getD current_time
    let elapsed_time := current_time - start_time
    let max_scroll := name_width - available_width + 20
    let time_to_max_scroll := max_scroll / m.config.scroll_speed
    let acceleration_time := min (time_to_max_scroll * (1 / 4)) 1
    let direction := (m.scroll_directions.lookup item_index).getD 1
    let item_display_time := current_time - m.last_active_change_time
    if elapsed_time ≤ acceleration_time then
      let progress := elapsed_time / acceleration_time
      let current_speed := m.config.scroll_speed * progress
      let distance := elapsed_time * current_speed / 2
      (render_name_clamp direction ((direction : ℚ) * distance) max_scroll, m)
    else
      let accel_distance := acceleration_time * m.config.scroll_speed / 2
      let constant_time := elapsed_time - acceleration_time
      let constant_distance := constant_time * m.config.scroll_speed
      let distance := accel_distance + constant_distance
      if distance ≥ max_scroll then
        if item_display_time < m.config.min_current_time then
          let excess := distance - max_scroll
          if direction = 1 then
            let m := { m with
              scroll_directions := dictInsert m.scroll_directions item_index (-1)
              scroll_start_times := dictInsert m.scroll_start_times item_index current_time }
            (render_name_clamp direction max_scroll max_scroll, m)
          else
            if excess ≥ max_scroll then
              let m := { m with
                scroll_directions := dictInsert m.scroll_directions item_index 1
                scroll_start_times := dictInsert m.scroll_start_times item_index current_time }
              (render_name_clamp direction 0 max_scroll, m)
            else
              (render_name_clamp direction (max_scroll - excess) max_scroll, m)
        else
          (render_name_clamp direction max_scroll max_scroll, m)
      else
        (render_name_clamp direction ((direction : ℚ) * distance) max_scroll, m)
  else (0, m)

end MenuRenderer

/-! ## Claim theorems -/

/-- C2: whenever the active program's frame result reports
`finished = true`, `run_program` classifies the frame as
`SELF_TERMINATED` with the active program's type — with no hypothesis on
the elapsed time, so in particular even when the play duration has also
expired that frame. -/
theorem C2_self_termination_precedence
    (pm : program_manager) (tk : time_keeper) (rr : render_result) (r : ℚ)
    (a : ProgramSpec)
    (hact : pm.active_program = some a)
    (hcanvas : pm.canvas_present = true)
    (hfin : rr.finished = true) :
    (pm.run_program tk rr r).1 =
      { finished_program_type := some a.tag
        finish_reason := some ProgramFinishReason.SELF_TERMINATED } := by
  simp [program_manager.run_program, hact, hcanvas, hfin]

/-- Witness for C2: a program whose duration (10) has long expired
(activation at 0, clock read 50) but whose frame result self-terminates is
still classified `SELF_TERMINATED`. -/
theorem C2_self_termination_precedence_witness :
    (program_manager.run_program
      { programs := [⟨PType.gnome, true, some 10⟩]
        active_program := some ⟨PType.gnome, true, some 10⟩
        program_start_time := 0
        canvas_present := true }
      (time_keeper.init 1 0 0) { finished := true } 50).1 =
      { finished_program_type := some PType.gnome
        finish_reason := some ProgramFinishReason.SELF_TERMINATED } :=
  C2_self_termination_precedence _ _ _ _ _ rfl rfl rfl

/-- C3: for an active program with a set play duration whose frame did not
self-terminate, `run_program` reports `DURATION_EXPIRED` exactly when the
clock reading minus the recorded activation time is at least the duration
(equality included), and reports no finished program and no reason on any
earlier frame. -/
theorem C3_duration_expiry_boundary
    (pm : program_manager) (tk : time_keeper) (rr : render_result) (r : ℚ)
    (a : ProgramSpec) (dur : ℚ)
    (hact : pm.active_program = some a)
    (hcanvas : pm.canvas_present = true)
    (hfin : rr.finished = false)
    (hdur : a.play_duration = some dur) :
    ((pm.run_program tk rr r).1.finish_reason = some ProgramFinishReason.DURATION_EXPIRED ↔
      (tk.time r).1 - pm.program_start_time ≥ dur) ∧
    ((tk.time r).1 - pm.program_start_time < dur →
      (pm.run_program tk rr r).1 =
        { finished_program_type := none, finish_reason := none }) := by
  have hkey : pm.run_program tk rr r =
      if dur ≤ (tk.time r).1 - pm.program_start_time then
        ({ finished_program_type := some a.tag
           finish_reason := some ProgramFinishReason.DURATION_EXPIRED }, (tk.time r).2)
      else ({ finished_program_type := none, finish_reason := none }, (tk.time r).2) := by
    simp [program_manager.run_program, hact, hcanvas, hfin, hdur]
  refine ⟨?_, ?_⟩
  · rw [hkey]
    by_cases h : dur ≤ (tk.time r).1 - pm.program_start_time
    · simp [h]
    · simp [h]
  · intro hlt
    rw [hkey, if_neg (not_le.mpr hlt)]

/-- Witness for C3, at the spec's boundary scenario: duration 10,
activation at virtual 0, clock advanced to exactly 10 — the threshold
frame itself reports `DURATION_EXPIRED`. -/
theorem C3_duration_expiry_boundary_witness :
    (program_manager.run_program
      { programs := [⟨PType.eye, false, some 10⟩]
        active_program := some ⟨PType.eye, false, some 10⟩
        program_start_time := 0
        canvas_present := true }
      (time_keeper.init 1 0 0) { finished := false } 10).1.finish_reason =
      some ProgramFinishReason.DURATION_EXPIRED :=
  (C3_duration_expiry_boundary _ _ _ _ _ 10 rfl rfl rfl rfl).1.mpr
    (by norm_num [time_keeper.init, time_keeper.time])

/-- C8: `set_timescale` signals the invalid-argument error exactly for a
non-positive factor, in which case the whole clock state is returned
unchanged; a positive factor succeeds and installs itself. -/
theorem C8_set_timescale_raises_iff
    (tk : time_keeper) (f r d : ℚ) :
    (f ≤ 0 → tk.set_timescale f r d = (Except.error "Timescale must be positive", tk)) ∧
    (0 < f → (tk.set_timescale f r d).1 = Except.ok () ∧
      (tk.set_timescale f r d).2.timescale = f) := by
  constructor
  · intro h
    simp [time_keeper.set_timescale, h]
  · intro h
    simp [time_keeper.set_timescale, not_le.mpr h]

/-- Witness for C8: factor `-1` is rejected with the prior state retained,
factor `2` is installed. -/
theorem C8_set_timescale_raises_iff_witness :
    ((time_keeper.init 1 0 0).set_timescale (-1) 5 5 =
      (Except.error "Timescale must be positive", time_keeper.init 1 0 0)) ∧
    ((time_keeper.init 1 0 0).set_timescale 2 5 5).2.timescale = 2 :=
  ⟨(C8_set_timescale_raises_iff (time_keeper.init 1 0 0) (-1) 5 5).1 (by decide),
   ((C8_set_timescale_raises_iff (time_keeper.init 1 0 0) 2 5 5).2 (by decide)).2⟩

/-- One externally observable clock operation: a `time()` read, or a
`set_timescale` call (whose internal `time()`/`now()` flushes observe the
real readings `r`, `d`). -/
inductive ClockOp where
  | read (r : ℚ)
  | setScale (f : ℚ) (r : ℚ) (d : ℚ)
deriving DecidableEq, Repr

/-- The real `time.time()` instant an operation observes. -/
def ClockOp.real : ClockOp → ℚ
  | .read r => r
  | .setScale _ r _ => r

/-- A `set_timescale` operation carries a positive factor; reads always
qualify. -/
def ClockOp.posFactor : ClockOp → Prop
  | .read _ => True
  | .setScale f _ _ => 0 < f

/-- Runs a sequence of clock operations, collecting the virtual times the
`time()` reads return.  A rejected `set_timescale` leaves the state
unchanged (the exception is raised before any mutation). -/
def runOps (tk : time_keeper) : List ClockOp → List ℚ × time_keeper
  | [] => ([], tk)
  | ClockOp.read r :: ops =>
      ((tk.time r).1 :: (runOps (tk.time r).2 ops).1, (runOps (tk.time r).2 ops).2)
  | ClockOp.setScale f r d :: ops =>
      runOps (tk.set_timescale f r d).2 ops

/-- Unfolded form of `time_keeper.time`. -/
theorem time_keeper.time_def (tk : time_keeper) (r : ℚ) :
    tk.time r =
      (tk.last_returned_time + (r - tk.last_real_time) * tk.timescale,
       { tk with
         last_real_time := r
         last_returned_time := tk.last_returned_time + (r - tk.last_real_time) * tk.timescale }) :=
  rfl

/-- Unfolded form of `time_keeper.now`. -/
theorem time_keeper.now_def (tk : time_keeper) (d : ℚ) :
    tk.now d =
      (tk.last_returned_datetime + (d - tk.last_real_datetime) * tk.timescale,
       { tk with
         last_real_datetime := d
         last_returned_datetime :=
           tk.last_returned_datetime + (d - tk.last_real_datetime) * tk.timescale }) :=
  rfl

/-- Unfolded form of a successful `set_timescale`: both clocks flushed at
the old scale, then the new factor installed. -/
theorem time_keeper.set_timescale_pos_def (tk : time_keeper) (f r d : ℚ) (h : 0 < f) :
    tk.set_timescale f r d =
      (Except.ok (),
       { timescale := f
         last_real_time := r
         last_returned_time := tk.last_returned_time + (r - tk.last_real_time) * tk.timescale
         last_real_datetime := d
         last_returned_datetime :=
           tk.last_returned_datetime + (d - tk.last_real_datetime) * tk.timescale }) := by
  unfold time_keeper.set_timescale
  rw [if_neg (not_le.mpr h)]
  rfl

/-- A non-decreasing chain keeps holding after lowering its head. -/
theorem chain_le_of_head_le {b a : ℚ} {l : List ℚ}
    (h : List.Chain' (· ≤ ·) (a :: l)) (hba : b ≤ a) :
    List.Chain' (· ≤ ·) (b :: l) := by
  cases l with
  | nil => simp
  | cons c l =>
      rw [List.chain'_cons] at h ⊢
      exact ⟨hba.trans h.1, h.2⟩

/-- Core invariant for C6: starting from a positively scaled clock, with
real readings non-decreasing along the trace (beginning at the anchor)
and every installed factor positive, the virtual times returned by the
reads — prefixed with the current anchor value — form a non-decreasing
chain. -/
theorem runOps_returned_mono (ops : List ClockOp) (tk : time_keeper)
    (hscale : 0 < tk.timescale)
    (hfac : ∀ op ∈ ops, op.posFactor)
    (hreal : List.Chain (· ≤ ·) tk.last_real_time (ops.map ClockOp.real)) :
    List.Chain' (· ≤ ·) (tk.last_returned_time :: (runOps tk ops).1) := by
  induction ops generalizing tk with
  | nil => simp [runOps]
  | cons op ops ih =>
      cases op with
      | read r =>
          rw [List.map_cons, List.chain_cons] at hreal
          obtain ⟨h1, hrest⟩ := hreal
          have h1' : tk.last_real_time ≤ r := h1
          have hstep : tk.last_returned_time ≤ (tk.time r).1 := by
            show tk.last_returned_time ≤
              tk.last_returned_time + (r - tk.last_real_time) * tk.timescale
            have := mul_nonneg (sub_nonneg.mpr h1') hscale.le
            linarith
          have htail := ih (tk.time r).2 hscale
            (fun op hop => hfac op (List.mem_cons_of_mem _ hop)) hrest
          show List.Chain' (· ≤ ·)
            (tk.last_returned_time :: (tk.time r).1 :: (runOps (tk.time r).2 ops).1)
          rw [List.chain'_cons]
          exact ⟨hstep, htail⟩
      | setScale f r d =>
          rw [List.map_cons, List.chain_cons] at hreal
          obtain ⟨h1, hrest⟩ := hreal
          have h1' : tk.last_real_time ≤ r := h1
          have hf : 0 < f := hfac _ (List.mem_cons_self _ _)
          have htk' : (tk.set_timescale f r d).2 =
              { timescale := f
                last_real_time := r
                last_returned_time :=
                  tk.last_returned_time + (r - tk.last_real_time) * tk.timescale
                last_real_datetime := d
                last_returned_datetime :=
                  tk.last_returned_datetime + (d - tk.last_real_datetime) * tk.timescale } := by
            rw [time_keeper.set_timescale_pos_def tk f r d hf]
          have htail := ih (tk.set_timescale f r d).2
            (by rw [htk']; exact hf)
            (fun op hop => hfac op (List.mem_cons_of_mem _ hop))
            (by rw [htk']; exact hrest)
          show List.Chain' (· ≤ ·)
            (tk.last_returned_time :: (runOps (tk.set_timescale f r d).2 ops).1)
          refine chain_le_of_head_le htail ?_
          rw [htk']
          have := mul_nonneg (sub_nonneg.mpr h1') hscale.le
          show tk.last_returned_time ≤
            tk.last_returned_time + (r - tk.last_real_time) * tk.timescale
          linarith

/-- C6: over any operation sequence of `time()` reads and `set_timescale`
calls with strictly positive factors, non-decreasing underlying real
readings and a positive initial scale, the returned virtual times are
non-decreasing; moreover a `set_timescale` call flushes the pending real
delta at the old scale, so a read at the very real instant of the change
returns exactly what a read without the scale change would have — no jump
and no rewind. -/
theorem C6_clock_monotonicity (tk : time_keeper) (ops : List ClockOp)
    (hscale : 0 < tk.timescale)
    (hfac : ∀ op ∈ ops, op.posFactor)
    (hreal : List.Chain (· ≤ ·) tk.last_real_time (ops.map ClockOp.real)) :
    List.Chain' (· ≤ ·) ((runOps tk ops).1) ∧
    (∀ (tk' : time_keeper) (f r d : ℚ), 0 < f →
      (((tk'.set_timescale f r d).2).time r).1 = (tk'.time r).1) := by
  constructor
  · exact (runOps_returned_mono ops tk hscale hfac hreal).tail
  · intro tk' f r d hf
    rw [time_keeper.set_timescale_pos_def tk' f r d hf]
    show tk'.last_returned_time + (r - tk'.last_real_time) * tk'.timescale + (r - r) * f =
      tk'.last_returned_time + (r - tk'.last_real_time) * tk'.timescale
    ring

/-- Witness for C6: a concrete trace — read at real 1, scale change to 3
at real 2, reads at reals 2 and 4 — yields the non-decreasing virtual
times `[1, 2, 8]`, and the no-jump equation holds at the change. -/
theorem C6_clock_monotonicity_witness :
    List.Chain' (· ≤ ·)
      ((runOps (time_keeper.init 1 0 0)
        [ClockOp.read 1, ClockOp.setScale 3 2 2, ClockOp.read 2, ClockOp.read 4]).1) ∧
    (∀ (tk' : time_keeper) (f r d : ℚ), 0 < f →
      (((tk'.set_timescale f r d).2).time r).1 = (tk'.time r).1) :=
  C6_clock_monotonicity (time_keeper.init 1 0 0)
    [ClockOp.read 1, ClockOp.setScale 3 2 2, ClockOp.read 2, ClockOp.read 4]
    (by norm_num [time_keeper.init])
    (by
      intro op hop
      fin_cases hop <;> norm_num [ClockOp.posFactor])
    (by norm_num [time_keeper.init, ClockOp.real])

/-- C10: the constructor validates nothing — any `initial_timescale` is
installed as-is — and under a non-positive construction-time scale the
`time()` readings are constant (scale zero) or strictly decreasing
(negative scale) while real time advances; monotonicity thus depends on
the unchecked positivity precondition. -/
theorem C10_init_unvalidated_timescale
    (s r d r1 r2 : ℚ) (hs : s ≤ 0) (hr1 : r ≤ r1) (hr12 : r1 ≤ r2) :
    (time_keeper.init s r d).timescale = s ∧
    (s = 0 → (((time_keeper.init s r d).time r1).1 = r ∧
      ((((time_keeper.init s r d).time r1).2).time r2).1 = r)) ∧
    (s < 0 → r1 < r2 →
      ((((time_keeper.init s r d).time r1).2).time r2).1 <
        ((time_keeper.init s r d).time r1).1) := by
  refine ⟨rfl, ?_, ?_⟩
  · rintro rfl
    simp [time_keeper.init, time_keeper.time]
  · intro hneg hlt
    simp only [time_keeper.init, time_keeper.time]
    have : (r2 - r1) * s < 0 := mul_neg_of_pos_of_neg (by linarith) hneg
    linarith

/-- Witness for C10: a clock constructed with scale `-1` is created
successfully and two advancing reads (reals 1 then 2) yield strictly
decreasing virtual times. -/
theorem C10_init_unvalidated_timescale_witness :
    ((-1 : ℚ) ≤ 0) ∧
    ((((time_keeper.init (-1) 0 0).time 1).2).time 2).1 <
      ((time_keeper.init (-1) 0 0).time 1).1 :=
  ⟨by decide,
   (C10_init_unvalidated_timescale (-1) 0 0 1 2 (by decide) (by decide) (by decide)).2.2
     (by decide) (by decide)⟩

/-- The base (workshop) program as a scheduling scenario registers it. -/
def wsSpec : ProgramSpec := { tag := PType.workshop, is_screen_saver := false, play_duration := some 10 }

/-- The burn (override) program: not screensaver-flagged, 10-second
duration (the `program_runner` defaults). -/
def burnSpec : ProgramSpec := { tag := PType.burn, is_screen_saver := false, play_duration := some 10 }

/-- The `n`-th screensaver-flagged program of a scenario. -/
def saverSpec (n : ℕ) : ProgramSpec := { tag := PType.saver n, is_screen_saver := true, play_duration := some 10 }

/-- C1: when a frame carries no finished-program classification, the
override-window check runs before the idle-timeout check: with the
current instant inside `[burn_start_time, burn_end_time)`, a registered
burn program, and a non-screensaver, non-burn active program that has
also exceeded the idle threshold, `may_update_program` activates the
burn program and records the switch time — it does not pick a
screensaver. -/
theorem C1_override_before_idle
    (s : program_scheduler) (pm : program_manager) (tk : time_keeper)
    (result : program_runner_result) (r d : ℚ) (a pb : ProgramSpec)
    (hfin : result.finished_program_type = none)
    (hact : pm.active_program = some a)
    (hnb : a.tag ≠ PType.burn)
    (hsav : a.is_screen_saver = false)
    (hidle : (tk.time r).1 - s.last_program_switch_time ≥
      program_scheduler.DISPLAY_SCREENSAVER_AFTER_SECONDS)
    (hwin1 : s.burn_start_time ≤ (tk.now d).1)
    (hwin2 : (tk.now d).1 < s.burn_end_time)
    (hburn : pm.programs.find? (fun p => p.tag = PType.burn) = some pb) :
    (program_scheduler.may_update_program s pm tk result r d).2.1.active_program = some pb ∧
    (program_scheduler.may_update_program s pm tk result r d).1.last_program_switch_time =
      (tk.time r).1 := by
  have hpb : pb.tag = PType.burn := by
    have h := List.find?_some hburn
    simpa using h
  have hburnflag : (s.should_run_burn_program (tk.time r).2 d).1 = true := by
    simp only [program_scheduler.should_run_burn_program]
    exact decide_eq_true ⟨hwin1, hwin2⟩
  unfold program_scheduler.may_update_program
  simp only [hact, hfin, Option.isSome_none, Bool.false_eq_true, if_false, hburnflag,
    if_true, hnb, not_false_eq_true, hburn,
    program_manager.set_active_program, program_manager.get_program_by_type, hpb]
  rw [if_pos hnb]
  exact ⟨rfl, rfl⟩

/-- Scheduler state for the C1 witness scenario: last switch at 5, burn
window `[40, 55)`. -/
def sC1 : program_scheduler :=
  { last_program_switch_time := 5
    last_screen_saver_index := 0
    burn_start_time := 40
    burn_end_time := 55 }

/-- Manager state for the C1 witness scenario: workshop active since 5. -/
def pmC1 : program_manager :=
  { programs := [wsSpec, saverSpec 0, burnSpec]
    active_program := some wsSpec
    program_start_time := 5
    canvas_present := true }

/-- Witness for C1, at the spec's numbers shifted to virtual instant 45:
burn window `[40, 55)`, last switch 40 seconds ago (idle threshold 30
exceeded), frame unfinished — the scheduler switches to the burn program
and records the switch time. -/
theorem C1_override_before_idle_witness :
    (program_scheduler.may_update_program sC1 pmC1 (time_keeper.init 1 0 0) { } 45 45).2.1.active_program =
      some burnSpec ∧
    (program_scheduler.may_update_program sC1 pmC1 (time_keeper.init 1 0 0) { } 45 45).1.last_program_switch_time =
      ((time_keeper.init 1 0 0).time 45).1 :=
  C1_override_before_idle sC1 pmC1 (time_keeper.init 1 0 0) { } 45 45 wsSpec burnSpec
    rfl rfl (by decide) rfl
    (by norm_num [sC1, time_keeper.init, time_keeper.time_def,
      program_scheduler.DISPLAY_SCREENSAVER_AFTER_SECONDS])
    (by norm_num [sC1, time_keeper.init, time_keeper.now_def])
    (by norm_num [sC1, time_keeper.init, time_keeper.now_def])
    rfl

/-- C5 (amended): a frame whose result carries a finished-program
classification makes `may_update_program` switch back to the first
registered workshop program, but the scheduler's own state — in
particular `last_program_switch_time` — is left entirely unchanged (the
source returns straight after `_set_initial_program`, which only touches
the manager). -/
theorem C5_finished_returns_to_base
    (s : program_scheduler) (pm : program_manager) (tk : time_keeper)
    (result : program_runner_result) (r d : ℚ) (a pw : ProgramSpec)
    (hfin : result.finished_program_type.isSome = true)
    (hact : pm.active_program = some a)
    (hw : pm.programs.find? (fun p => p.tag = PType.workshop) = some pw) :
    (program_scheduler.may_update_program s pm tk result r d).2.1.active_program = some pw ∧
    (program_scheduler.may_update_program s pm tk result r d).1 = s := by
  have hpw : pw.tag = PType.workshop := by
    have h := List.find?_some hw
    simpa using h
  unfold program_scheduler.may_update_program
  simp only [hact, hfin, if_true, program_scheduler.set_initial_program, hw,
    program_manager.set_active_program, program_manager.get_program_by_type, hpw]
  exact ⟨trivial, trivial⟩

/-- Programs registered in the C7 scenario: the workshop base program,
three screensavers, and the (inactive-window) burn program. -/
def progsC7 : List ProgramSpec := [wsSpec, saverSpec 0, saverSpec 1, saverSpec 2, burnSpec]

/-- One scheduling step of the C7 scenario: a `may_update_program` call
whose `time()`/`now()` reads both observe real instant `t`. -/
def stepC7 (w : program_scheduler × program_manager × time_keeper)
    (res : program_runner_result) (t : ℚ) :
    program_scheduler × program_manager × time_keeper :=
  program_scheduler.may_update_program w.1 w.2.1 w.2.2 res t t

/-- A frame result with no classification. -/
def noFinishRes : program_runner_result := { }

/-- A frame result classifying program `t` as duration-expired (not a
self-termination). -/
def finishRes (t : PType) : program_runner_result :=
  { finished_program_type := some t
    finish_reason := some ProgramFinishReason.DURATION_EXPIRED }

/-- C7 initial world: workshop active, round-robin index 0, last switch at
virtual 0, burn window far in the future. -/
def w0C7 : program_scheduler × program_manager × time_keeper :=
  ({ last_program_switch_time := 0
     last_screen_saver_index := 0
     burn_start_time := 100000
     burn_end_time := 100010 },
   { programs := progsC7
     active_program := some wsSpec
     program_start_time := 0
     canvas_present := true },
   time_keeper.init 1 0 0)

/-- World after the 1st idle timeout (virtual 40). -/
def w1C7 := stepC7 w0C7 noFinishRes 40

/-- World after the 1st screensaver expires (virtual 45): back to base. -/
def w2C7 := stepC7 w1C7 (finishRes (PType.saver 0)) 45

/-- World after the 2nd idle timeout (virtual 75). -/
def w3C7 := stepC7 w2C7 noFinishRes 75

/-- World after the 2nd expiry (virtual 80). -/
def w4C7 := stepC7 w3C7 (finishRes (PType.saver 1)) 80

/-- World after the 3rd idle timeout (virtual 110). -/
def w5C7 := stepC7 w4C7 noFinishRes 110

/-- World after the 3rd expiry (virtual 115). -/
def w6C7 := stepC7 w5C7 (finishRes (PType.saver 2)) 115

/-- World after the 4th idle timeout (virtual 145). -/
def w7C7 := stepC7 w6C7 noFinishRes 145

/-- World after the 4th expiry (virtual 150). -/
def w8C7 := stepC7 w7C7 (finishRes (PType.saver 0)) 150

/-- World after the 5th idle timeout (virtual 180). -/
def w9C7 := stepC7 w8C7 noFinishRes 180

/-- Manager state for the C5 counterexample: a screensaver active. -/
def pmC5 : program_manager :=
  { programs := [wsSpec, saverSpec 0, burnSpec]
    active_program := some (saverSpec 0)
    program_start_time := 20
    canvas_present := true }

/-- Scheduler state for the C5 counterexample: last switch recorded at
virtual 20, burn window far away. -/
def sC5 : program_scheduler :=
  { last_program_switch_time := 20
    last_screen_saver_index := 1
    burn_start_time := 1000
    burn_end_time := 1010 }

/-- Witness for C5 (amended): concrete screensaver-finished frame at
virtual 50 — the workshop program is re-activated and the scheduler state
is untouched. -/
theorem C5_finished_returns_to_base_witness :
    (program_scheduler.may_update_program sC5 pmC5 (time_keeper.init 1 0 0)
      { finished_program_type := some (PType.saver 0)
        finish_reason := some ProgramFinishReason.SELF_TERMINATED } 50 50).2.1.active_program =
      some wsSpec ∧
    (program_scheduler.may_update_program sC5 pmC5 (time_keeper.init 1 0 0)
      { finished_program_type := some (PType.saver 0)
        finish_reason := some ProgramFinishReason.SELF_TERMINATED } 50 50).1 = sC5 :=
  C5_finished_returns_to_base sC5 pmC5 (time_keeper.init 1 0 0) _ 50 50
    (saverSpec 0) wsSpec rfl rfl rfl

/-- Counterexample to C5 as stated: at virtual time 50 a finished
classification does switch back to the workshop program, but
`last_program_switch_time` stays at its old value 20 — it is *not* reset
to the current virtual time 50. -/
theorem C5_finished_no_switch_time_reset_counterexample :
    (program_scheduler.may_update_program sC5 pmC5 (time_keeper.init 1 0 0)
      { finished_program_type := some (PType.saver 0)
        finish_reason := some ProgramFinishReason.DURATION_EXPIRED } 50 50).2.1.active_program =
      some wsSpec ∧
    ((time_keeper.init 1 0 0).time 50).1 = 50 ∧
    (program_scheduler.may_update_program sC5 pmC5 (time_keeper.init 1 0 0)
      { finished_program_type := some (PType.saver 0)
        finish_reason := some ProgramFinishReason.DURATION_EXPIRED } 50 50).1.last_program_switch_time =
      20 ∧
    (20 : ℚ) ≠ 50 := by
  refine ⟨?_, ?_, ?_, by norm_num⟩
  · simp [program_scheduler.may_update_program, program_scheduler.set_initial_program,
      program_manager.set_active_program, program_manager.get_program_by_type,
      pmC5, sC5, wsSpec, saverSpec, burnSpec, List.find?]
  · norm_num [time_keeper.init, time_keeper.time_def]
  · simp [program_scheduler.may_update_program, program_scheduler.set_initial_program,
      program_manager.set_active_program, program_manager.get_program_by_type,
      pmC5, sC5, wsSpec, saverSpec, burnSpec, List.find?]



/-- Distinct `PType` constructors are unequal (saver case). -/
theorem workshop_eq_saver_false (n : ℕ) : (PType.workshop = PType.saver n) = False :=
  eq_false fun h => PType.noConfusion h

/-- Distinct `PType` constructors are unequal (workshop vs burn). -/
theorem workshop_eq_burn_false : (PType.workshop = PType.burn) = False :=
  eq_false fun h => PType.noConfusion h

/-- Distinct `PType` constructors are unequal (saver vs burn). -/
theorem saver_eq_burn_false (n : ℕ) : (PType.saver n = PType.burn) = False :=
  eq_false fun h => PType.noConfusion h

/-- Equality of `saver` tags reduces to equality of their numbers. -/
theorem saver_eq_saver (m n : ℕ) : (PType.saver m = PType.saver n) = (m = n) := by
  simp

/-- The C7 registry lookup for the workshop program. -/
theorem progsC7_find_workshop :
    progsC7.find? (fun p => p.tag = PType.workshop) = some wsSpec := by
  norm_num [progsC7, wsSpec, saverSpec, burnSpec, List.find?]

/-- The C7 registry lookup for screensaver 0. -/
theorem progsC7_find_saver0 :
    progsC7.find? (fun p => p.tag = PType.saver 0) = some (saverSpec 0) := by
  norm_num [progsC7, wsSpec, saverSpec, burnSpec, List.find?,
    workshop_eq_saver_false, saver_eq_saver]

/-- The C7 registry lookup for screensaver 1. -/
theorem progsC7_find_saver1 :
    progsC7.find? (fun p => p.tag = PType.saver 1) = some (saverSpec 1) := by
  norm_num [progsC7, wsSpec, saverSpec, burnSpec, List.find?,
    workshop_eq_saver_false, saver_eq_saver]

/-- The C7 registry lookup for screensaver 2. -/
theorem progsC7_find_saver2 :
    progsC7.find? (fun p => p.tag = PType.saver 2) = some (saverSpec 2) := by
  norm_num [progsC7, wsSpec, saverSpec, burnSpec, List.find?,
    workshop_eq_saver_false, saver_eq_saver]

/-- The C7 registry's screensaver sublist, in registration order. -/
theorem progsC7_filter :
    progsC7.filter (fun p => p.is_screen_saver) = [saverSpec 0, saverSpec 1, saverSpec 2] := by
  norm_num [progsC7, wsSpec, saverSpec, burnSpec, List.filter]

/-- Evaluation of the 1st idle timeout: screensaver 0 chosen, index advanced to 1. -/
theorem w1C7_eq : w1C7 =
    (⟨40, 1, 100000, 100010⟩, ⟨progsC7, some (saverSpec 0), 40, true⟩,
     ⟨1, 40, 40, 40, 40⟩) := by
  norm_num [w1C7, w0C7, stepC7, noFinishRes,
    program_scheduler.may_update_program, program_scheduler.screensaver_check,
    program_scheduler.get_next_screensaver, program_scheduler.should_run_burn_program,
    program_scheduler.set_initial_program, program_scheduler.DISPLAY_SCREENSAVER_AFTER_SECONDS,
    program_manager.set_active_program, program_manager.get_program_by_type,
    program_manager.get_screensaver_programs,
    time_keeper.init, time_keeper.time_def, time_keeper.now_def,
    progsC7_find_workshop, progsC7_find_saver0, progsC7_filter, List.get?,
    workshop_eq_burn_false, workshop_eq_saver_false, saver_eq_burn_false,
    wsSpec, saverSpec]

/-- Evaluation of the 1st expiry: back to the workshop program. -/
theorem w2C7_eq : w2C7 =
    (⟨40, 1, 100000, 100010⟩, ⟨progsC7, some wsSpec, 45, true⟩,
     ⟨1, 45, 45, 40, 40⟩) := by
  norm_num [w2C7, w1C7_eq, stepC7, finishRes,
    program_scheduler.may_update_program,
    program_scheduler.set_initial_program,
    program_manager.set_active_program, program_manager.get_program_by_type,
    time_keeper.time_def, progsC7_find_workshop, wsSpec, saverSpec]

/-- Evaluation of the 2nd idle timeout: screensaver 1 chosen, index advanced to 2. -/
theorem w3C7_eq : w3C7 =
    (⟨75, 2, 100000, 100010⟩, ⟨progsC7, some (saverSpec 1), 75, true⟩,
     ⟨1, 75, 75, 75, 75⟩) := by
  norm_num [w3C7, w2C7_eq, stepC7, noFinishRes,
    program_scheduler.may_update_program, program_scheduler.screensaver_check,
    program_scheduler.get_next_screensaver, program_scheduler.should_run_burn_program,
    program_scheduler.set_initial_program, program_scheduler.DISPLAY_SCREENSAVER_AFTER_SECONDS,
    program_manager.set_active_program, program_manager.get_program_by_type,
    program_manager.get_screensaver_programs,
    time_keeper.time_def, time_keeper.now_def,
    progsC7_find_workshop, progsC7_find_saver1, progsC7_filter, List.get?,
    workshop_eq_burn_false, workshop_eq_saver_false, saver_eq_burn_false,
    wsSpec, saverSpec]

/-- Evaluation of the 2nd expiry: back to the workshop program. -/
theorem w4C7_eq : w4C7 =
    (⟨75, 2, 100000, 100010⟩, ⟨progsC7, some wsSpec, 80, true⟩,
     ⟨1, 80, 80, 75, 75⟩) := by
  norm_num [w4C7, w3C7_eq, stepC7, finishRes,
    program_scheduler.may_update_program,
    program_scheduler.set_initial_program,
    program_manager.set_active_program, program_manager.get_program_by_type,
    time_keeper.time_def, progsC7_find_workshop, wsSpec, saverSpec]

/-- Evaluation of the 3rd idle timeout: screensaver 2 chosen, index wraps to 0. -/
theorem w5C7_eq : w5C7 =
    (⟨110, 0, 100000, 100010⟩, ⟨progsC7, some (saverSpec 2), 110, true⟩,
     ⟨1, 110, 110, 110, 110⟩) := by
  norm_num [w5C7, w4C7_eq, stepC7, noFinishRes,
    program_scheduler.may_update_program, program_scheduler.screensaver_check,
    program_scheduler.get_next_screensaver, program_scheduler.should_run_burn_program,
    program_scheduler.set_initial_program, program_scheduler.DISPLAY_SCREENSAVER_AFTER_SECONDS,
    program_manager.set_active_program, program_manager.get_program_by_type,
    program_manager.get_screensaver_programs,
    time_keeper.time_def, time_keeper.now_def,
    progsC7_find_workshop, progsC7_find_saver2, progsC7_filter, List.get?,
    workshop_eq_burn_false, workshop_eq_saver_false, saver_eq_burn_false,
    wsSpec, saverSpec]

/-- Evaluation of the 3rd expiry: back to the workshop program. -/
theorem w6C7_eq : w6C7 =
    (⟨110, 0, 100000, 100010⟩, ⟨progsC7, some wsSpec, 115, true⟩,
     ⟨1, 115, 115, 110, 110⟩) := by
  norm_num [w6C7, w5C7_eq, stepC7, finishRes,
    program_scheduler.may_update_program,
    program_scheduler.set_initial_program,
    program_manager.set_active_program, program_manager.get_program_by_type,
    time_keeper.time_def, progsC7_find_workshop, wsSpec, saverSpec]

/-- Evaluation of the 4th idle timeout: screensaver 0 chosen again. -/
theorem w7C7_eq : w7C7 =
    (⟨145, 1, 100000, 100010⟩, ⟨progsC7, some (saverSpec 0), 145, true⟩,
     ⟨1, 145, 145, 145, 145⟩) := by
  norm_num [w7C7, w6C7_eq, stepC7, noFinishRes,
    program_scheduler.may_update_program, program_scheduler.screensaver_check,
    program_scheduler.get_next_screensaver, program_scheduler.should_run_burn_program,
    program_scheduler.set_initial_program, program_scheduler.DISPLAY_SCREENSAVER_AFTER_SECONDS,
    program_manager.set_active_program, program_manager.get_program_by_type,
    program_manager.get_screensaver_programs,
    time_keeper.time_def, time_keeper.now_def,
    progsC7_find_workshop, progsC7_find_saver0, progsC7_filter, List.get?,
    workshop_eq_burn_false, workshop_eq_saver_false, saver_eq_burn_false,
    wsSpec, saverSpec]

/-- Evaluation of the 4th expiry: back to the workshop program. -/
theorem w8C7_eq : w8C7 =
    (⟨145, 1, 100000, 100010⟩, ⟨progsC7, some wsSpec, 150, true⟩,
     ⟨1, 150, 150, 145, 145⟩) := by
  norm_num [w8C7, w7C7_eq, stepC7, finishRes,
    program_scheduler.may_update_program,
    program_scheduler.set_initial_program,
    program_manager.set_active_program, program_manager.get_program_by_type,
    time_keeper.time_def, progsC7_find_workshop, wsSpec, saverSpec]

/-- Evaluation of the 5th idle timeout: screensaver 1 chosen again. -/
theorem w9C7_eq : w9C7 =
    (⟨180, 2, 100000, 100010⟩, ⟨progsC7, some (saverSpec 1), 180, true⟩,
     ⟨1, 180, 180, 180, 180⟩) := by
  norm_num [w9C7, w8C7_eq, stepC7, noFinishRes,
    program_scheduler.may_update_program, program_scheduler.screensaver_check,
    program_scheduler.get_next_screensaver, program_scheduler.should_run_burn_program,
    program_scheduler.set_initial_program, program_scheduler.DISPLAY_SCREENSAVER_AFTER_SECONDS,
    program_manager.set_active_program, program_manager.get_program_by_type,
    program_manager.get_screensaver_programs,
    time_keeper.time_def, time_keeper.now_def,
    progsC7_find_workshop, progsC7_find_saver1, progsC7_filter, List.get?,
    workshop_eq_burn_false, workshop_eq_saver_false, saver_eq_burn_false,
    wsSpec, saverSpec]



/-- The round-robin helper never touches the switch-time field on any
non-raising path. -/
theorem get_next_screensaver_keeps_switch_time (s : program_scheduler)
    (l : List (Option ProgramSpec)) (x : Option PType) (s' : program_scheduler)
    (h : s.get_next_screensaver l = Except.ok (x, s')) :
    s'.last_program_switch_time = s.last_program_switch_time := by
  unfold program_scheduler.get_next_screensaver at h
  by_cases he : l.isEmpty
  · simp only [he, if_true] at h
    cases h
    rfl
  · simp only [he, Bool.false_eq_true, if_false] at h
    rcases hg : l.get? s.last_screen_saver_index with _ | slot
    · rw [hg] at h
      cases h
    · rw [hg] at h
      cases slot with
      | none =>
          cases h
          rfl
      | some p =>
          cases h
          rfl

/-- C7: over the registration-ordered screensaver list, five successive
idle-timeout switches starting at round-robin index 0 activate the
screensavers at indices 0, 1, 2, 0, 1 (each switch advancing the index
modulo the list length of 3); an empty slot selected at an in-range
round-robin index still advances the index while producing no program —
in which case `screensaver_check` switches nothing and leaves the
manager, the clock and the switch time unchanged. -/
theorem C7_screensaver_round_robin :
    (w1C7.2.1.active_program = some (saverSpec 0) ∧ w1C7.1.last_screen_saver_index = 1) ∧
    (w3C7.2.1.active_program = some (saverSpec 1) ∧ w3C7.1.last_screen_saver_index = 2) ∧
    (w5C7.2.1.active_program = some (saverSpec 2) ∧ w5C7.1.last_screen_saver_index = 0) ∧
    (w7C7.2.1.active_program = some (saverSpec 0) ∧ w7C7.1.last_screen_saver_index = 1) ∧
    (w9C7.2.1.active_program = some (saverSpec 1) ∧ w9C7.1.last_screen_saver_index = 2) ∧
    (∀ (s : program_scheduler) (slots : List (Option ProgramSpec)),
      slots.get? s.last_screen_saver_index = some none →
      s.get_next_screensaver slots =
        Except.ok (none, { s with
          last_screen_saver_index := (s.last_screen_saver_index + 1) % slots.length })) ∧
    (∀ (s : program_scheduler) (pm : program_manager) (tk : time_keeper)
        (a : ProgramSpec) (ct r : ℚ) (s' : program_scheduler),
      s.get_next_screensaver (pm.get_screensaver_programs.map some) =
        Except.ok (none, s') →
      (program_scheduler.screensaver_check s pm tk a ct r).2 = (pm, tk) ∧
      (program_scheduler.screensaver_check s pm tk a ct r).1.last_program_switch_time =
        s.last_program_switch_time) := by
  refine ⟨⟨by rw [w1C7_eq], by rw [w1C7_eq]⟩, ⟨by rw [w3C7_eq], by rw [w3C7_eq]⟩,
    ⟨by rw [w5C7_eq], by rw [w5C7_eq]⟩, ⟨by rw [w7C7_eq], by rw [w7C7_eq]⟩,
    ⟨by rw [w9C7_eq], by rw [w9C7_eq]⟩, ?_, ?_⟩
  · intro s slots hslot
    have hemp : slots.isEmpty = false := by
      cases slots with
      | nil => simp [List.get?] at hslot
      | cons a as => rfl
    unfold program_scheduler.get_next_screensaver
    simp only [hemp, Bool.false_eq_true, if_false, hslot]
  · intro s pm tk a ct r s' hnone
    unfold program_scheduler.screensaver_check
    by_cases h : a.is_screen_saver = false ∧
        ct - s.last_program_switch_time ≥ program_scheduler.DISPLAY_SCREENSAVER_AFTER_SECONDS
    · simp only [h, if_true, hnone]
      exact ⟨rfl, get_next_screensaver_keeps_switch_time s _ none s' hnone⟩
    · simp only [h, if_false]
      refine ⟨?_, ?_⟩ <;> first | rfl | trivial

/-- Witness for C7: an empty slot at in-range index 0 of a two-slot list
yields no program and advances the index to `(0 + 1) % 2`. -/
theorem C7_screensaver_round_robin_witness :
    (⟨77, 0, 0, 0⟩ : program_scheduler).get_next_screensaver [none, some (saverSpec 9)] =
      Except.ok (none, ⟨77, (0 + 1) % 2, 0, 0⟩) :=
  C7_screensaver_round_robin.2.2.2.2.2.1 ⟨77, 0, 0, 0⟩ [none, some (saverSpec 9)] rfl



/-- C9 (amended): `set_menu_items` always replaces the row set; when the
old active index is out of range of the new list *and* the new list is
non-empty, the active index resets to 0 and the dwell timer to the
current time; when the old index is still in range — or the new list is
empty, even though the old index is then out of range — both are left
unchanged. -/
theorem C9_set_items_out_of_range_reset
    (m : MenuRenderer) (items : List MenuItem) (t : ℚ) :
    (m.active_item_index ≥ items.length → items ≠ [] →
      ((m.set_menu_items items t).active_item_index = 0 ∧
       (m.set_menu_items items t).last_active_change_time = t)) ∧
    (m.active_item_index < items.length →
      ((m.set_menu_items items t).active_item_index = m.active_item_index ∧
       (m.set_menu_items items t).last_active_change_time = m.last_active_change_time)) ∧
    (items = [] →
      ((m.set_menu_items items t).active_item_index = m.active_item_index ∧
       (m.set_menu_items items t).last_active_change_time = m.last_active_change_time)) ∧
    (m.set_menu_items items t).menu_items = items := by
  refine ⟨?_, ?_, ?_, ?_⟩
  · intro h1 h2
    simp [MenuRenderer.set_menu_items, h1, h2]
  · intro h1
    have hc : ¬(m.active_item_index ≥ items.length ∧ items ≠ []) :=
      fun hh => absurd hh.1 (not_le.mpr h1)
    simp [MenuRenderer.set_menu_items, hc]
  · intro h0
    subst h0
    simp [MenuRenderer.set_menu_items]
  · by_cases hc : m.active_item_index ≥ items.length ∧ items ≠ []
    · simp [MenuRenderer.set_menu_items, hc]
    · simp [MenuRenderer.set_menu_items, hc]

/-- Witness for C9 (amended): index 3 is out of range of a 1-item list,
so the call resets the index to 0 and the timer to the current time 9. -/
theorem C9_set_items_out_of_range_reset_witness :
    ((MenuRenderer.set_menu_items
      ⟨⟨10, 6, 12⟩, [], 3, 5, [], []⟩ [⟨"1", "n", "d"⟩] 9).active_item_index = 0 ∧
     (MenuRenderer.set_menu_items
      ⟨⟨10, 6, 12⟩, [], 3, 5, [], []⟩ [⟨"1", "n", "d"⟩] 9).last_active_change_time = 9) :=
  (C9_set_items_out_of_range_reset ⟨⟨10, 6, 12⟩, [], 3, 5, [], []⟩ [⟨"1", "n", "d"⟩] 9).1
    (by decide) (by simp)

/-- Counterexample to C9 as stated: replacing the rows with the empty
list leaves the out-of-range active index 2 and the stale timer 5 in
place — the claimed reset to index 0 / current time 9 does not happen
because the source condition also requires the new list to be truthy. -/
theorem C9_set_items_empty_list_counterexample :
    ((2 : ℕ) ≥ ([] : List MenuItem).length) ∧
    (MenuRenderer.set_menu_items
      ⟨⟨10, 6, 12⟩, [⟨"1", "n", "d"⟩], 2, 5, [], []⟩ [] 9).active_item_index = 2 ∧
    (MenuRenderer.set_menu_items
      ⟨⟨10, 6, 12⟩, [⟨"1", "n", "d"⟩], 2, 5, [], []⟩ [] 9).last_active_change_time = 5 ∧
    ((2 : ℕ) ≠ 0) := by
  refine ⟨by decide, ?_, ?_, by decide⟩ <;>
    norm_num [MenuRenderer.set_menu_items]

/-- Renderer state for the C4 scenario: speed 10, `min_dwell` 6, one
overflowing row active since 0 with forward scroll started at 0
(`name_width` 110 against viewport 100 gives `max_scroll` 30, reached at
elapsed 3.375 s, before the 6 s minimum dwell). -/
def mC4 : MenuRenderer :=
  { config := ⟨10, 6, 12⟩
    menu_items := [⟨"1", "a very wide name", "loc"⟩]
    active_item_index := 0
    last_active_change_time := 0
    scroll_start_times := [(0, 0)]
    scroll_directions := [(0, 1)] }

/-- C4: at elapsed 3.5 s (dwell 3.5 < 6) the accumulated distance 31.25
has passed `max_scroll` = 30, so the direction flips to backward — but on
the following frames (4.0 s and 4.5 s) the rendered offset stays pinned
at `max_scroll` = 30 instead of decreasing toward 0, because the final
backward clamp computes `max_scroll - (direction * distance)` =
`max_scroll + distance`; with the dwell already ≥ `min_dwell`
(activation at -10) the offset clamps at 30 with no reversal, as
claimed. -/
theorem C4_scroll_reversal_pinned :
    ((mC4.render_name 110 100 true 0 (7/2)).1 = 30 ∧
     ((mC4.render_name 110 100 true 0 (7/2)).2.scroll_directions.lookup 0 = some (-1))) ∧
    ((mC4.render_name 110 100 true 0 (7/2)).2.render_name 110 100 true 0 4).1 = 30 ∧
    ((mC4.render_name 110 100 true 0 (7/2)).2.render_name 110 100 true 0 (9/2)).1 = 30 ∧
    (({ mC4 with last_active_change_time := -10 }.render_name 110 100 true 0 (7/2)).1 = 30 ∧
     ({ mC4 with last_active_change_time := -10 }.render_name 110 100 true 0 (7/2)).2.scroll_directions.lookup 0 = some 1) := by
  norm_num [mC4, MenuRenderer.render_name, MenuRenderer.render_name_clamp, dictInsert,
    List.lookup, List.filter]

end WsDisplay
